import Mathlib

/-!
Verification of the super-dl media downloader against its specification.

The Python sources are shallowly embedded: pure string and list processing
functions are translated directly; calls into the standard library
(`urllib.parse.urlparse`, `urllib.parse.urljoin`, `os.path.basename`,
`pathlib.Path(...).name`) are modelled as Lean functions following the
library semantics on the inputs the code feeds them; effectful calls
(`requests.get`, `subprocess.run`, `shutil.which`, `mkdir`, file writes)
are modelled as oracle parameters, with a trace of performed effects where
a claim needs to observe them.  HTML parsing via BeautifulSoup is modelled
by a `Doc` structure carrying the raw text together with the parsed tag
list in document order (and the tags matched by the one CSS selector the
code uses); regular-expression searches over raw text are implemented as
explicit scanners with Python `re` leftmost / greedy / lazy semantics.
-/

/-- `leadsWith p cs`: `cs` starts with the literal character list `p`. -/
def leadsWith : List Char → List Char → Bool
  | [], _ => true
  | _ :: _, [] => false
  | p :: ps, c :: cs => p == c && leadsWith ps cs

/-- Case-insensitive variant of `leadsWith` (models `re.IGNORECASE`). -/
def leadsWithCI : List Char → List Char → Bool
  | [], _ => true
  | _ :: _, [] => false
  | p :: ps, c :: cs => p.toLower == c.toLower && leadsWithCI ps cs

/-- `containsSub needle hay`: `needle` occurs contiguously in `hay`
(Python `needle in hay`; the empty needle always occurs). -/
def containsSub (needle : List Char) : List Char → Bool
  | [] => leadsWith needle []
  | c :: cs => leadsWith needle (c :: cs) || containsSub needle cs

/-- Python substring test `needle in hay` on strings. -/
def containsStr (hay needle : String) : Bool :=
  containsSub needle.toList hay.toList

/-- Structural lowercase map (ASCII, as the code's inputs are). -/
def strToLower (s : String) : String :=
  ⟨s.toList.map Char.toLower⟩

/-- Structural `String.startsWith`. -/
def strStartsWith (s pre : String) : Bool :=
  leadsWith pre.toList s.toList

/-- Structural `String.endsWith`. -/
def strEndsWith (s sfx : String) : Bool :=
  leadsWith sfx.toList.reverse s.toList.reverse

/-- Structural `String.drop`. -/
def strDrop (s : String) (n : Nat) : String :=
  ⟨s.toList.drop n⟩

/-- Structural Python `str.split("/")` (keeps empty segments). -/
def splitSlashAux : List Char → List Char → List String
  | [], acc => [⟨acc.reverse⟩]
  | c :: cs, acc =>
    if c == '/' then ⟨acc.reverse⟩ :: splitSlashAux cs []
    else splitSlashAux cs (c :: acc)

def splitSlash (s : String) : List String :=
  splitSlashAux s.toList []

/-- Structural `"/".join`. -/
def interSlash : List String → String
  | [] => ""
  | [a] => a
  | a :: rest => a ++ "/" ++ interSlash rest

/-- Split a character list at the first occurrence of `sep`;
`none` when `sep` does not occur. -/
def splitAtFirst (sep : Char) : List Char → Option (List Char × List Char)
  | [] => none
  | c :: cs =>
    if c == sep then some ([], cs)
    else
      match splitAtFirst sep cs with
      | some (a, b) => some (c :: a, b)
      | none => none

/-- Python `str.rstrip("/")`: remove trailing slashes. -/
def rstripSlash (s : String) : String :=
  ⟨(s.toList.reverse.dropWhile (fun c => c == '/')).reverse⟩

/-- Python `str.strip("/")`: remove leading and trailing slashes. -/
def stripSlash (s : String) : String :=
  ⟨((s.toList.dropWhile (fun c => c == '/')).reverse.dropWhile
      (fun c => c == '/')).reverse⟩

/-- The substring after the last `/` (the whole string when there is no
slash).  This models `os.path.basename` exactly, and `pathlib.Path(p).name`
for paths whose last segment is not `.` or `..`. -/
def pathBase (s : String) : String :=
  match splitAtFirst '/' s.toList.reverse with
  | some (revName, _) => ⟨revName.reverse⟩
  | none => s

/-- The directory part of a path, as `pathlib.Path(p).parent` renders it:
everything before the last `/`, with `.` for slash-free paths and `/` for
paths directly under the root. -/
def parentDir (s : String) : String :=
  match splitAtFirst '/' s.toList.reverse with
  | some (_, revRest) =>
    if revRest.isEmpty then "/" else ⟨revRest.reverse⟩
  | none => "."

/-- `pathlib` `/` join for a relative-name right operand
(`Path(cwd) / filename` with a slash-free filename). -/
def joinPath (dir name : String) : String :=
  if name == "" then dir else dir ++ "/" ++ name

/-- Python `\s` on ASCII input. -/
def pyIsSpace (c : Char) : Bool :=
  c == ' ' || c == '\t' || c == '\n' || c == '\r' || c == '\x0b' || c == '\x0c'

/-- The safe filename alphabet of the spec and of the sites'
`re.sub(r"[^A-Za-z0-9._-]", "-", name)` sanitizers. -/
def isSafeChar (c : Char) : Bool :=
  ('A' ≤ c && c ≤ 'Z') || ('a' ≤ c && c ≤ 'z') || ('0' ≤ c && c ≤ '9') ||
    c == '.' || c == '_' || c == '-'

/-- `re.sub(r"[^A-Za-z0-9._-]", "-", name)`. -/
def sanitizeName (s : String) : String :=
  ⟨s.toList.map (fun c => if isSafeChar c then c else '-')⟩

/-- Python-falsiness of an optional string (`not x` for `None` or `""`). -/
def isFalsy : Option String → Bool
  | none => true
  | some s => s == ""

/-- The result fields of `urllib.parse.urlparse` that the code reads. -/
structure UrlParts where
  scheme : String
  netloc : String
  path : String
  query : String
  fragment : String
deriving DecidableEq, Repr

/-- Characters allowed in a URL scheme by `urllib.parse`. -/
def isSchemeChar (c : Char) : Bool :=
  c.isAlphanum || c == '+' || c == '-' || c == '.'

/-- Model of `urllib.parse.urlparse` (equivalently `urlsplit` for the
fields used): an optional scheme before the first `:` when it is a valid
scheme token, a netloc after `//` up to the first `/`, `?` or `#`, then
the fragment split at the first `#` and the query at the first `?`. -/
def parseUrl (url : String) : UrlParts :=
  let cs := url.toList
  let (scheme, r1) :=
    match splitAtFirst ':' cs with
    | some (bef, aft) =>
      if bef.length > 0 && bef.all isSchemeChar &&
          (match bef.head? with
           | some c => c.isAlpha
           | none => false) then
        (strToLower (String.mk bef), aft)
      else ("", cs)
    | none => ("", cs)
  let (netloc, r2) :=
    if leadsWith ['/', '/'] r1 then
      let after := r1.drop 2
      let nl := after.takeWhile (fun c => !(c == '/' || c == '?' || c == '#'))
      (String.mk nl, after.drop nl.length)
    else ("", r1)
  let (r3, frag) :=
    match splitAtFirst '#' r2 with
    | some (a, b) => (a, String.mk b)
    | none => (r2, "")
  let (pathCs, qry) :=
    match splitAtFirst '?' r3 with
    | some (a, b) => (a, String.mk b)
    | none => (r3, "")
  ⟨scheme, netloc, String.mk pathCs, qry, frag⟩

/-- Model of `urllib.parse.urlunsplit`. -/
def unsplitUrl (p : UrlParts) : String :=
  let u := p.path
  let u :=
    if p.netloc ≠ "" || strStartsWith u "//" then
      "//" ++ p.netloc ++
        (if u ≠ "" && !(strStartsWith u "/") then "/" ++ u else u)
    else u
  let u := if p.scheme ≠ "" then p.scheme ++ ":" ++ u else u
  let u := if p.query ≠ "" then u ++ "?" ++ p.query else u
  if p.fragment ≠ "" then u ++ "#" ++ p.fragment else u

/-- The `..` / `.` resolution loop of `urllib.parse.urljoin`:
`..` pops the previously resolved segment (ignored on empty), `.` is
dropped, anything else is appended. -/
def resolveDotsAux (acc : List String) : List String → List String
  | [] => acc.reverse
  | s :: rest =>
    if s == ".." then resolveDotsAux (acc.drop 1) rest
    else if s == "." then resolveDotsAux acc rest
    else resolveDotsAux (s :: acc) rest

def resolveDots (segs : List String) : List String :=
  resolveDotsAux [] segs

/-- `urljoin`'s `segments[1:-1] = filter(None, segments[1:-1])`: drop
empty interior segments (relative joins only), keeping the first and
last. -/
def filterInterior (segs : List String) : List String :=
  match segs with
  | [] => []
  | [a] => [a]
  | a :: rest =>
    match rest.getLast? with
    | none => [a]
    | some z => a :: ((rest.dropLast.filter (fun s => !(s == ""))) ++ [z])

/-- Model of `urllib.parse.urljoin` for the http(s) URLs the code joins:
an empty operand yields the other; a URL with a different scheme is
returned unchanged; a URL with its own netloc replaces everything after
the scheme; otherwise the path is resolved against the base (absolute
paths replace the base path, relative ones are appended to the base
path's directory) with `.`/`..` segments folded away. -/
def urljoin (base url : String) : String :=
  if base == "" then url
  else if url == "" then base
  else
    let b := parseUrl base
    let u := parseUrl url
    let uscheme := if u.scheme == "" then b.scheme else u.scheme
    if uscheme ≠ b.scheme then url
    else if u.netloc ≠ "" then
      unsplitUrl ⟨uscheme, u.netloc, u.path, u.query, u.fragment⟩
    else if u.path == "" then
      unsplitUrl ⟨uscheme, b.netloc, b.path,
        (if u.query ≠ "" then u.query else b.query), u.fragment⟩
    else
      let baseSegs :=
        let parts := splitSlash b.path
        if parts.getLast? == some "" then parts else parts.dropLast
      let segs :=
        if strStartsWith u.path "/" then splitSlash u.path
        else filterInterior (baseSegs ++ splitSlash u.path)
      let resolved := resolveDots segs
      let resolved :=
        if segs.getLast? == some "." || segs.getLast? == some ".." then
          resolved ++ [""]
        else resolved
      let p := interSlash resolved
      let p := if p == "" then "/" else p
      unsplitUrl ⟨uscheme, b.netloc, p, u.query, u.fragment⟩

/-- Split `cs` on a leading `http://` or `https://` (the `https?://` of the
regexes; the optional `s` is matched greedily as `re` does). -/
def schemeSplit (cs : List Char) : Option (List Char × List Char) :=
  if leadsWith "https://".toList cs then some ("https://".toList, cs.drop 8)
  else if leadsWith "http://".toList cs then some ("http://".toList, cs.drop 7)
  else none

/-- Case-insensitive `schemeSplit`, returning the original characters. -/
def schemeSplitCI (cs : List Char) : Option (List Char × List Char) :=
  if leadsWithCI "https://".toList cs then some (cs.take 8, cs.drop 8)
  else if leadsWithCI "http://".toList cs then some (cs.take 7, cs.drop 7)
  else none

/-- Attempt the regex `https?://CLASS+\.EXT` (`CLASS` a negated character
class given by `allowed`, greedy or lazy `+`) at the head of `cs`,
returning the matched characters.  Greedy matching backtracks from the
longest class run, lazy matching extends from the shortest, exactly as
Python `re` does. -/
def urlMatchAt (allowed : Char → Bool) (sfx : List Char) (greedy : Bool)
    (cs : List Char) : Option (List Char) :=
  match schemeSplit cs with
  | none => none
  | some (sch, rest) =>
    let runLen := (rest.takeWhile allowed).length
    let ks := (List.range runLen).map (· + 1)
    let ks := if greedy then ks.reverse else ks
    match ks.find? (fun k => leadsWith sfx (rest.drop k)) with
    | some k => some (sch ++ rest.take k ++ sfx)
    | none => none

/-- Leftmost-match driver: try `att` at every start position in order,
as `re.search` does. -/
def scanFrom (att : List Char → Option (List Char)) : List Char → Option (List Char)
  | [] => att []
  | c :: cs =>
    match att (c :: cs) with
    | some m => some m
    | none => scanFrom att cs

/-- `re.search(r"(https?://[^\s'\"]+\.mp4)", text)`: the leftmost greedy
match of an absolute URL ending in `.mp4` (used by the cumslutx and
simpthots fallbacks). -/
def fallbackScanMp4 (text : String) : Option String :=
  (scanFrom
      (urlMatchAt (fun c => !(pyIsSpace c || c == '\'' || c == '"'))
        ".mp4".toList true)
      text.toList).map String.mk

/-- `re.search(r"(https?://[^\s'\"]+\.m3u8)", text)` (eroleaked and
amateurdoporn playlist scans; `re.findall(...)[0]` has the same first
result). -/
def scanM3u8 (text : String) : Option String :=
  (scanFrom
      (urlMatchAt (fun c => !(pyIsSpace c || c == '\'' || c == '"'))
        ".m3u8".toList true)
      text.toList).map String.mk

/-- Python `\b` after a word character: the next character must not be a
word character (end of text also qualifies). -/
def wordBoundaryAfter : List Char → Bool
  | [] => true
  | c :: _ => !(c.isAlphanum || c == '_')

/-- The lazy capture `(https?://[^"\']+?EXT)` followed by a closing `["\']`
(shared by the thotfans `source`/`a` attribute regexes), case-insensitive. -/
def lazyQuotedCapture (sfx : List Char) (cs : List Char) : Option (List Char) :=
  match schemeSplitCI cs with
  | none => none
  | some (sch, rest) =>
    let ks := (List.range rest.length).map (· + 1)
    match ks.find? (fun k =>
        (rest.take k).all (fun c => !(c == '"' || c == '\'')) &&
        leadsWithCI sfx (rest.drop k) &&
        (match rest.drop (k + sfx.length) with
         | q :: _ => q == '"' || q == '\''
         | [] => false)) with
    | some k => some (sch ++ rest.take k ++ (rest.drop k).take sfx.length)
    | none => none

/-- Attempt `<TAG[^>]+ATTR=["\'](https?://[^"\']+?EXT)["\']` (with
`re.IGNORECASE`) at the head of `cs`: the greedy `[^>]+` backtracks from
the longest run of non-`>` characters to the last position where the
attribute, the quote and the captured URL all match. -/
def attrScanAt (tagLit attrLit sfx : List Char) (cs : List Char) :
    Option (List Char) :=
  if leadsWithCI tagLit cs then
    let rest := cs.drop tagLit.length
    let runLen := (rest.takeWhile (fun c => !(c == '>'))).length
    let js := ((List.range runLen).map (· + 1)).reverse
    js.findSome? (fun j =>
      let r2 := rest.drop j
      if leadsWithCI attrLit r2 then
        match r2.drop attrLit.length with
        | q :: r4 =>
          if q == '"' || q == '\'' then lazyQuotedCapture sfx r4
          else none
        | [] => none
      else none)
  else none

/-- A parsed HTML element as BeautifulSoup exposes it: tag name and
attribute list. -/
structure Tag where
  name : String
  attrs : List (String × String)
deriving DecidableEq, Repr

/-- Attribute lookup (`tag["k"]` / `tag.has_attr("k")`). -/
def getAttr (t : Tag) (k : String) : Option String :=
  (t.attrs.find? (fun a => a.1 == k)).map (·.2)

/-- A fetched HTML document together with its BeautifulSoup parse:
`text` is the raw markup the regex fallbacks scan, `tags` the parsed
elements in document order, and `playerIframes` the elements matched by
the CSS selector `.video-player .responsive-player iframe` in document
order (the one selector the code uses). -/
structure Doc where
  text : String
  tags : List Tag
  playerIframes : List Tag
deriving DecidableEq, Repr

/-- `soup.find(name, attrsReq)`: the first element with the given tag name
whose attributes include every required key/value pair. -/
def findTag (tags : List Tag) (n : String) (req : List (String × String)) :
    Option Tag :=
  tags.find? (fun t =>
    t.name == n && req.all (fun kv => getAttr t kv.1 == some kv.2))

/-- Observable side effects of a download invocation. -/
inductive Effect where
  | subproc (cmd : List String)
  | httpGet (url : String)
  | mkdirp (path : String)
  | openWrite (path : String)
deriving DecidableEq, Repr

/-- The Python exception kinds the modules raise. -/
inductive PyErr where
  | valueError
  | runtimeError
  | httpError
deriving DecidableEq, Repr

/-- The paths of all `mkdir` effects in a trace, in order. -/
def mkdirTargets : List Effect → List String
  | [] => []
  | .mkdirp p :: r => p :: mkdirTargets r
  | _ :: r => mkdirTargets r

/-- The paths of all file-open-for-write effects in a trace, in order. -/
def writeTargets : List Effect → List String
  | [] => []
  | .openWrite p :: r => p :: writeTargets r
  | _ :: r => writeTargets r

namespace cumslutx

def USER_AGENT : String :=
  "Mozilla/5.0 (Windows NT 10.0; Win64; x64) " ++
  "AppleWebKit/537.36 (KHTML, like Gecko) " ++
  "Chrome/141.0.0.0 Safari/537.36"

/-- The `meta itemprop=contentURL` branch of `extract_mp4_url`: accepted
only when the `content` attribute is present and ends in `.mp4`. -/
def metaUrl (d : Doc) : Option String :=
  match findTag d.tags "meta" [("itemprop", "contentURL")] with
  | some t =>
    match getAttr t "content" with
    | some u => if strEndsWith u ".mp4" then some u else none
    | none => none
  | none => none

/-- The `<source type="video/mp4">` branch of `extract_mp4_url`. -/
def sourceUrl (d : Doc) : Option String :=
  match findTag d.tags "source" [("type", "video/mp4")] with
  | some t => getAttr t "src"
  | none => none

/-- `cumslutx.extract_mp4_url`: meta tag, then source tag, then the raw
`.mp4` regex scan of the page text. -/
def extract_mp4_url (d : Doc) : Option String :=
  match metaUrl d with
  | some u => some u
  | none =>
    match sourceUrl d with
    | some u => some u
    | none => fallbackScanMp4 d.text

/-- `cumslutx.derive_filename_from_url`. -/
def derive_filename_from_url (url : String) : String :=
  let parts := (splitSlash (parseUrl url).path).filter (fun p => p ≠ "")
  let name :=
    match parts.getLast? with
    | some p => p
    | none => "video"
  let name := sanitizeName name
  if !(strEndsWith (strToLower name) ".mp4") then name ++ ".mp4" else name

def curlCmd (out mp4 : String) : List String :=
  ["curl", "-L", "--fail", "--output", out, "--user-agent", USER_AGENT,
   "--referer", "https://cumslutx.com/", mp4]

/-- `cumslutx.download`: validate the URL, default the output name from
the URL, run curl and return its exit code. -/
def download (run : List String → Int) (mp4_url : Option String)
    (out_path : Option String) : Except PyErr Int × List Effect :=
  match mp4_url with
  | none => (.error .valueError, [])
  | some u =>
    if u == "" then (.error .valueError, [])
    else
      let out :=
        match out_path with
        | none => derive_filename_from_url u
        | some p => p
      let cmd := curlCmd out u
      (.ok (run cmd), [.subproc cmd])

end cumslutx

namespace influencersgonewild

def USER_AGENT : String :=
  "Mozilla/5.0 (Windows NT 10.0; Win64; x64) " ++
  "AppleWebKit/537.36 (KHTML, like Gecko) " ++
  "Chrome/91.0.4472.124 Safari/537.36"

def REFERER : String := "https://influencersgonewild.com/"

/-- The `<source type="video/mp4">` lookup. -/
def sourceUrl (d : Doc) : Option String :=
  match findTag d.tags "source" [("type", "video/mp4")] with
  | some t => getAttr t "src"
  | none => none

/-- `influencersgonewild.extract_mp4_url`: the source tag only — this
module has no textual fallback scan. -/
def extract_mp4_url (d : Doc) : Option String := sourceUrl d

/-- `influencersgonewild.download`: wget with fixed headers; creates the
output's parent directory when an output path is given and the directory
does not exist. -/
def download (fsExists : String → Bool) (run : List String → Int)
    (mp4_url : Option String) (out_path : Option String) :
    Except PyErr Int × List Effect :=
  match mp4_url with
  | none => (.error .valueError, [])
  | some u =>
    if u == "" then (.error .valueError, [])
    else
      let base := ["wget", "--user-agent", USER_AGENT, "--referer", REFERER]
      if isFalsy out_path then
        let cmd := base ++ [u]
        (.ok (run cmd), [.subproc cmd])
      else
        let p := out_path.getD ""
        let d := parentDir p
        let pre := if fsExists d then [] else [Effect.mkdirp d]
        let cmd := base ++ ["-O", p] ++ [u]
        (.ok (run cmd), pre ++ [.subproc cmd])

end influencersgonewild

namespace simpthots

def USER_AGENT : String :=
  "Mozilla/5.0 (Windows NT 10.0; Win64; x64) " ++
  "AppleWebKit/537.36 (KHTML, like Gecko) " ++
  "Chrome/141.0.0.0 Safari/537.36"

def REFERER : String := "https://simpthots.com/"

def ogUrl (d : Doc) : Option String :=
  match findTag d.tags "meta" [("property", "og:video")] with
  | some t => getAttr t "content"
  | none => none

def ogSecureUrl (d : Doc) : Option String :=
  match findTag d.tags "meta" [("property", "og:video:secure_url")] with
  | some t => getAttr t "content"
  | none => none

/-- `simpthots.extract_mp4_url`: OpenGraph meta tags, then the raw `.mp4`
regex scan. -/
def extract_mp4_url (d : Doc) : Option String :=
  match ogUrl d with
  | some u => some u
  | none =>
    match ogSecureUrl d with
    | some u => some u
    | none => fallbackScanMp4 d.text

/-- `simpthots.derive_filename_from_url` (same algorithm as cumslutx). -/
def derive_filename_from_url (url : String) : String :=
  let parts := (splitSlash (parseUrl url).path).filter (fun p => p ≠ "")
  let name :=
    match parts.getLast? with
    | some p => p
    | none => "video"
  let name := sanitizeName name
  if !(strEndsWith (strToLower name) ".mp4") then name ++ ".mp4" else name

def curlCmd (out mp4 : String) : List String :=
  ["curl", "-L", "--fail", "--output", out, "--user-agent", USER_AGENT,
   "--referer", REFERER, mp4]

/-- `simpthots.download`. -/
def download (run : List String → Int) (mp4_url : Option String)
    (out_path : Option String) : Except PyErr Int × List Effect :=
  match mp4_url with
  | none => (.error .valueError, [])
  | some u =>
    if u == "" then (.error .valueError, [])
    else
      let out :=
        match out_path with
        | none => derive_filename_from_url u
        | some p => p
      let cmd := curlCmd out u
      (.ok (run cmd), [.subproc cmd])

end simpthots

namespace eroleaked

def USER_AGENT : String :=
  "Mozilla/5.0 (Windows NT 10.0; Win64; x64) " ++
  "AppleWebKit/537.36 (KHTML, like Gecko) " ++
  "Chrome/141.0.0.0 Safari/537.36"

def REFERER : String := "https://eroleaked.com/"

/-- `soup.find("iframe")` fallback of `extract_iframe_src`. -/
def anyIframeSrc (d : Doc) : Option String :=
  match findTag d.tags "iframe" [] with
  | some t => getAttr t "src"
  | none => none

/-- `eroleaked.extract_iframe_src`: the iframe selected by
`.video-player .responsive-player iframe` when it carries a `src`,
otherwise the first iframe of the document. -/
def extract_iframe_src (d : Doc) : Option String :=
  match d.playerIframes.head? with
  | some t =>
    match getAttr t "src" with
    | some s => some s
    | none => anyIframeSrc d
  | none => anyIframeSrc d

/-- `eroleaked.extract_m3u8_from_html`: first `.m3u8` URL in the text. -/
def extract_m3u8_from_html (html : String) : Option String := scanM3u8 html

/-- `eroleaked.derive_filename_from_url`: strips trailing slashes from the
raw URL string, takes the final path component, falls back through the
non-empty `/`-separated parts (then `"video"`), and sanitizes. -/
def derive_filename_from_url (url : String) : String :=
  let path := rstripSlash url
  let name := pathBase path
  let name :=
    if name == "" then
      let parts := (splitSlash path).filter (fun p => p ≠ "")
      match parts.getLast? with
      | some p => p
      | none => "video"
    else name
  sanitizeName name

def ffmpegHeaders : String :=
  "sec-ch-ua-platform: \"Windows\"\r\n" ++
  "Referer: " ++ REFERER ++ "\r\n" ++
  "User-Agent: " ++ USER_AGENT ++ "\r\n" ++
  "sec-ch-ua: \"Google Chrome\";v=\"141\", \"Not?A_Brand\";v=\"8\", \"Chromium\";v=\"141\"\r\n" ++
  "sec-ch-ua-mobile: ?0\r\n"

def ffmpegCmd (m3u8 out : String) : List String :=
  ["ffmpeg", "-headers", ffmpegHeaders, "-i", m3u8, "-c", "copy", out]

/-- The output path `download` uses: the given one, else a name derived
from the site root (`REFERER`) plus `.mp4`. -/
def resolveOut (out_path : Option String) : String :=
  match out_path with
  | none => derive_filename_from_url REFERER ++ ".mp4"
  | some p => p

/-- `eroleaked.download`: validate, run ffmpeg, return its exit code. -/
def download (run : List String → Int) (m3u8_url : Option String)
    (out_path : Option String) : Except PyErr Int × List Effect :=
  match m3u8_url with
  | none => (.error .valueError, [])
  | some u =>
    if u == "" then (.error .valueError, [])
    else
      let cmd := ffmpegCmd u (resolveOut out_path)
      (.ok (run cmd), [.subproc cmd])

/-- `eroleaked.full_download_from_page` with the page fetcher as oracle;
the second component lists the URLs fetched, in order.  A relative iframe
`src` is resolved against the hardcoded site root, not the page URL. -/
def full_download_from_page (run : List String → Int)
    (fetch : String → Except Unit Doc) (url : String)
    (out_path : Option String) : Except PyErr Int × List String :=
  match fetch url with
  | .error _ => (.error .httpError, [url])
  | .ok d =>
    match extract_iframe_src d with
    | none => (.error .runtimeError, [url])
    | some src =>
      if src == "" then (.error .runtimeError, [url])
      else
        let resolved :=
          if strStartsWith src "//" then "https:" ++ src
          else if strStartsWith src "/" then "https://eroleaked.com" ++ src
          else src
        match fetch resolved with
        | .error _ => (.error .httpError, [url, resolved])
        | .ok d2 =>
          match extract_m3u8_from_html d2.text with
          | none => (.error .runtimeError, [url, resolved])
          | some m3 =>
            if m3 == "" then (.error .runtimeError, [url, resolved])
            else
              let out :=
                match out_path with
                | none => derive_filename_from_url url ++ ".mp4"
                | some p => p
              ((download run (some m3) (some out)).1, [url, resolved])

end eroleaked

namespace amateurdoporn

def USER_AGENT : String :=
  "Mozilla/5.0 (Windows NT 10.0; Win64; x64) " ++
  "AppleWebKit/537.36 (KHTML, like Gecko) " ++
  "Chrome/141.0.0.0 Safari/537.36"

def REFERER : String := "https://amateurdoporn.com/"

/-- `amateurdoporn.extract_iframe_src`: first iframe with a `src`. -/
def extract_iframe_src (d : Doc) : Option String :=
  match findTag d.tags "iframe" [] with
  | some t => getAttr t "src"
  | none => none

/-- `amateurdoporn.extract_m3u8_from_text`. -/
def extract_m3u8_from_text (text : String) : Option String := scanM3u8 text

/-- `amateurdoporn.derive_filename_from_url` (same algorithm as
eroleaked's). -/
def derive_filename_from_url (url : String) : String :=
  let path := rstripSlash url
  let name := pathBase path
  let name :=
    if name == "" then
      let parts := (splitSlash path).filter (fun p => p ≠ "")
      match parts.getLast? with
      | some p => p
      | none => "video"
    else name
  sanitizeName name

def ffmpegHeaders : String :=
  "sec-ch-ua-platform: \"Windows\"\r\n" ++
  "Referer: " ++ REFERER ++ "\r\n" ++
  "User-Agent: " ++ USER_AGENT ++ "\r\n"

def ffmpegCmd (m3u8 out : String) : List String :=
  ["ffmpeg", "-headers", ffmpegHeaders, "-i", m3u8, "-c", "copy", out]

/-- The output path `download` uses: the given one, else a name derived
from the m3u8 URL plus `.mp4`. -/
def resolveOut (m3u8 : String) (out_path : Option String) : String :=
  match out_path with
  | none => derive_filename_from_url m3u8 ++ ".mp4"
  | some p => p

/-- `amateurdoporn.download`: validate, run ffmpeg, return its exit code. -/
def download (run : List String → Int) (m3u8_url : Option String)
    (out_path : Option String) : Except PyErr Int × List Effect :=
  match m3u8_url with
  | none => (.error .valueError, [])
  | some u =>
    if u == "" then (.error .valueError, [])
    else
      let cmd := ffmpegCmd u (resolveOut u out_path)
      (.ok (run cmd), [.subproc cmd])

/-- `amateurdoporn.full_download_from_page`: direct `.m3u8` scan of the
page, else iframe resolved with `urljoin` against the page URL and a scan
of the iframe page; the second component lists the URLs fetched. -/
def full_download_from_page (run : List String → Int)
    (fetch : String → Except Unit Doc) (url : String)
    (out_path : Option String) : Except PyErr Int × List String :=
  match fetch url with
  | .error _ => (.error .httpError, [url])
  | .ok d =>
    match extract_m3u8_from_text d.text with
    | some m3 => ((download run (some m3) out_path).1, [url])
    | none =>
      match extract_iframe_src d with
      | none => (.error .runtimeError, [url])
      | some src =>
        if src == "" then (.error .runtimeError, [url])
        else
          let j := urljoin url src
          match fetch j with
          | .error _ => (.error .httpError, [url, j])
          | .ok d2 =>
            match extract_m3u8_from_text d2.text with
            | some m3 => ((download run (some m3) out_path).1, [url, j])
            | none => (.error .runtimeError, [url, j])

end amateurdoporn

namespace thothub

def USER_AGENT : String :=
  "Mozilla/5.0 (Windows NT 10.0; Win64; x64) " ++
  "AppleWebKit/537.36 (KHTML, like Gecko) " ++
  "Chrome/114.0.0.0 Safari/537.36"

/-- One attempt of the regex
`video_url:\s*'function/0/(https?://[^']+\.mp4)\b` at the head of the
text: literal prefix, greedy non-quote run backtracking to the last
`.mp4` that sits on a word boundary; the group (scheme through `.mp4`)
is returned. -/
def primaryAt (cs : List Char) : Option (List Char) :=
  if leadsWith "video_url:".toList cs then
    let r1 := (cs.drop 10).dropWhile pyIsSpace
    if leadsWith ('\'' :: "function/0/".toList) r1 then
      match schemeSplit (r1.drop 12) with
      | none => none
      | some (sch, rest) =>
        let runLen := (rest.takeWhile (fun c => !(c == '\''))).length
        let ks := ((List.range runLen).map (· + 1)).reverse
        match ks.find? (fun k =>
            leadsWith ".mp4".toList (rest.drop k) &&
            wordBoundaryAfter (rest.drop (k + 4))) with
        | some k => some (sch ++ rest.take k ++ ".mp4".toList)
        | none => none
    else none
  else none

/-- Leftmost match of the `video_url: 'function/0/...'` pattern. -/
def primaryScan (html : String) : Option String :=
  (scanFrom primaryAt html.toList).map String.mk

/-- `re.search(r'(https?://[^" ]+?\.mp4)', html)`: lazy fallback scan. -/
def fallbackScan (html : String) : Option String :=
  (scanFrom (urlMatchAt (fun c => !(c == '"' || c == ' ')) ".mp4".toList false)
    html.toList).map String.mk

/-- `thothub.extract_mp4_url`: the JS `video_url` pattern, then any
`.mp4` URL in the page. -/
def extract_mp4_url (html : String) : Option String :=
  if html == "" then none
  else
    match primaryScan html with
    | some u => some u
    | none => fallbackScan html

/-- `thothub._append_random_rnd` with the random draw as a parameter. -/
def _append_random_rnd (rnd : Nat) (url : String) : String :=
  url ++ (if containsStr url "?" then "&" else "?") ++ "rnd=" ++ toString rnd

/-- `thothub._filename_from_url`: the basename of the parsed URL path
after stripping trailing slashes (query already dropped by the parse).
No sanitization is applied. -/
def _filename_from_url (url : String) : String :=
  pathBase (rstripSlash (parseUrl url).path)

/-- The output file `download` streams to: the provided path, else the
URL-derived filename under the working directory. -/
def resolveOut (cwd : String) (u : String) (out_path : Option String) : String :=
  if isFalsy out_path then joinPath cwd (_filename_from_url u)
  else out_path.getD ""

/-- `thothub.download`: append `?rnd=`, choose the output file from the
original URL, create its parent directory, stream the response; returns
0 on success and raises on an HTTP error. -/
def download (cwd : String) (rnd : Nat) (http : String → Bool)
    (mp4_url : Option String) (out_path : Option String) :
    Except PyErr Int × List Effect :=
  match mp4_url with
  | none => (.error .valueError, [])
  | some u =>
    if u == "" then (.error .valueError, [])
    else
      let urlRnd := _append_random_rnd rnd u
      let outFile := resolveOut cwd u out_path
      let pre := [Effect.mkdirp (parentDir outFile), Effect.httpGet urlRnd]
      if http urlRnd then (.ok 0, pre ++ [.openWrite outFile])
      else (.error .httpError, pre)

end thothub

namespace thotfans

def USER_AGENT : String :=
  "Mozilla/5.0 (Windows NT 10.0; Win64; x64) " ++
  "AppleWebKit/537.36 (KHTML, like Gecko) " ++
  "Chrome/114.0.0.0 Safari/537.36"

/-- `re.search(r'<source[^>]+src=["\'](https?://[^"\']+?\.mp4)["\']', html,
re.IGNORECASE)`. -/
def sourceScan (html : String) : Option String :=
  (scanFrom (attrScanAt "<source".toList "src=".toList ".mp4".toList)
    html.toList).map String.mk

/-- `re.search(r'<a[^>]+href=["\'](https?://[^"\']+?\.mp4)["\']', html,
re.IGNORECASE)`. -/
def anchorScan (html : String) : Option String :=
  (scanFrom (attrScanAt "<a".toList "href=".toList ".mp4".toList)
    html.toList).map String.mk

/-- `re.search(r'(https?://[^"\'" >]+?\.mp4)', html)`: lazy fallback. -/
def fallbackScan (html : String) : Option String :=
  (scanFrom (urlMatchAt
      (fun c => !(c == '"' || c == '\'' || c == ' ' || c == '>'))
      ".mp4".toList false)
    html.toList).map String.mk

/-- `thotfans.extract_mp4_url`: source tag, then anchor href, then any
`.mp4` URL in the document. -/
def extract_mp4_url (html : String) : Option String :=
  if html == "" then none
  else
    match sourceScan html with
    | some u => some u
    | none =>
      match anchorScan html with
      | some u => some u
      | none => fallbackScan html

/-- `thotfans._append_random_rnd` with the random draw as a parameter. -/
def _append_random_rnd (rnd : Nat) (url : String) : String :=
  url ++ (if containsStr url "?" then "&" else "?") ++ "rnd=" ++ toString rnd

/-- `thotfans._filename_from_url` (identical to thothub's). -/
def _filename_from_url (url : String) : String :=
  pathBase (rstripSlash (parseUrl url).path)

def resolveOut (cwd : String) (u : String) (out_path : Option String) : String :=
  if isFalsy out_path then joinPath cwd (_filename_from_url u)
  else out_path.getD ""

/-- `thotfans.download` (identical flow to thothub's). -/
def download (cwd : String) (rnd : Nat) (http : String → Bool)
    (mp4_url : Option String) (out_path : Option String) :
    Except PyErr Int × List Effect :=
  match mp4_url with
  | none => (.error .valueError, [])
  | some u =>
    if u == "" then (.error .valueError, [])
    else
      let urlRnd := _append_random_rnd rnd u
      let outFile := resolveOut cwd u out_path
      let pre := [Effect.mkdirp (parentDir outFile), Effect.httpGet urlRnd]
      if http urlRnd then (.ok 0, pre ++ [.openWrite outFile])
      else (.error .httpError, pre)

end thotfans

namespace fapnut

/-- `fapnut._filename_from_page_url`: last segment of the stripped page
path, with `fapnut` defaults, plus `.mp4`.  No sanitization. -/
def _filename_from_page_url (page_url : String) : String :=
  let path := stripSlash (parseUrl page_url).path
  if path == "" then "fapnut.mp4"
  else
    let name :=
      match (splitSlash path).getLast? with
      | some n => n
      | none => ""
    let name := if name == "" then "fapnut" else name
    name ++ ".mp4"

/-- The output file `download` resolves: explicit path, else from the
page URL, else from the m3u8 URL's basename plus `.mp4`. -/
def resolveOut (cwd : String) (u : String) (out_path page_url : Option String) :
    String :=
  if !(isFalsy out_path) then out_path.getD ""
  else if !(isFalsy page_url) then
    joinPath cwd (_filename_from_page_url (page_url.getD ""))
  else
    let n := pathBase (parseUrl u).path
    joinPath cwd ((if n == "" then "fapnut" else n) ++ ".mp4")

def ffmpegCmd (fp m3u8 out : String) : List String :=
  [fp, "-y", "-hide_banner", "-loglevel", "error", "-headers",
   "Referer: https://fapnut.net/\r\n", "-i", m3u8, "-c", "copy", out]

/-- `fapnut.download`: validate the URL, require ffmpeg on the path, run
it, and raise `RuntimeError` when its exit code is non-zero (only 0 is
ever returned). -/
def download (cwd : String) (which : Option String)
    (run : List String → Int) (m3u8_url : Option String)
    (out_path page_url : Option String) : Except PyErr Int × List Effect :=
  match m3u8_url with
  | none => (.error .valueError, [])
  | some u =>
    if u == "" then (.error .valueError, [])
    else
      match which with
      | none => (.error .runtimeError, [])
      | some fp =>
        let outFile := resolveOut cwd u out_path page_url
        let cmd := ffmpegCmd fp u outFile
        let tr := [Effect.mkdirp (parentDir outFile), Effect.subproc cmd]
        if run cmd ≠ 0 then (.error .runtimeError, tr) else (.ok 0, tr)

end fapnut

/-- One registry entry: module path and recognized hostname patterns. -/
structure SiteInfo where
  module : String
  hosts : List String
deriving DecidableEq, Repr

/-- `_site_registry()`, in insertion order. -/
def site_registry : List (String × SiteInfo) :=
  [("influencersgonewild",
     ⟨"super_dl.sites.influencersgonewild", ["influencersgonewild.com"]⟩),
   ("eroleaked", ⟨"super_dl.sites.eroleaked", ["eroleaked.com"]⟩),
   ("amateurdoporn", ⟨"super_dl.sites.amateurdoporn", ["amateurdoporn.com"]⟩),
   ("cumslutx",
     ⟨"super_dl.sites.cumslutx",
      ["cumslutx.com", "girlxnude.com", "fapplay.com"]⟩),
   ("simpthots", ⟨"super_dl.sites.simpthots", ["simpthots.com"]⟩),
   ("thothub", ⟨"super_dl.sites.thothub", ["thothub.to", "thothub.org"]⟩),
   ("thotfans", ⟨"super_dl.sites.thotfans", ["thotfans.com"]⟩)]

/-- `registry.get(key)`. -/
def lookupRegistry (k : String) : Option SiteInfo :=
  (site_registry.find? (fun e => e.1 == k)).map (·.2)

/-- The hostname normalization of `infer_site_from_url`: lowercase the
netloc, drop a `user:pass@` prefix, drop a leading `www.`. -/
def normHost (url : String) : String :=
  let n := strToLower (parseUrl url).netloc
  let n :=
    match splitAtFirst '@' n.toList with
    | some (_, rest) => String.mk rest
    | none => n
  if strStartsWith n "www." then strDrop n 4 else n

/-- Does some hostname pattern of `info` occur in the normalized host? -/
def hostMatches (netloc : String) (info : SiteInfo) : Bool :=
  info.hosts.any (fun h => !(h == "") && containsStr netloc h)

/-- `infer_site_from_url`: first registry entry (in insertion order) with
a hostname pattern occurring in the normalized host. -/
def infer_site_from_url (url : String) : Option String :=
  if url == "" then none
  else
    let n := normHost url
    (site_registry.find? (fun e => hostMatches n e.2)).map (·.1)

/-- Parsed CLI arguments. -/
structure Args where
  version : Bool
  site : Option String
  url : Option String
  output : Option String

/-- A dynamically imported site module as `main` probes it: which of the
three duck-typed interfaces it exposes, and the behavior of each exposed
function (exceptions as `.error`). -/
structure PyModule where
  hasFull : Bool
  hasClassic : Bool
  hasIframeFlow : Bool
  full : String → Option String → Except Unit Int
  fetch_page : String → Except Unit String
  extract_mp4_url : String → Option String
  extract_iframe_src : String → Option String
  extract_m3u8_from_html : String → Option String
  download : String → Option String → Except Unit Int

/-- `site_key = args.site` with fallback to URL inference when falsy. -/
def resolveSiteKey (args : Args) (u : String) : Option String :=
  if isFalsy args.site then infer_site_from_url u else args.site

/-- The interface dispatch of `main` (inside its `try`): the high-level
helper, else the mp4 flow, else the iframe/m3u8 flow, else exit 5; any
exception yields exit 5.  The second component lists the URLs `main`
itself fetches through the module's `fetch_page`. -/
def runFlows (m : PyModule) (url : String) (out : Option String) :
    Int × List String :=
  if m.hasFull then
    match m.full url out with
    | .ok c => (c, [])
    | .error _ => (5, [])
  else if m.hasClassic then
    match m.fetch_page url with
    | .error _ => (5, [url])
    | .ok html =>
      match m.extract_mp4_url html with
      | none => (4, [url])
      | some mp4 =>
        if mp4 == "" then (4, [url])
        else
          match m.download mp4 out with
          | .ok c => (c, [url])
          | .error _ => (5, [url])
  else if m.hasIframeFlow then
    match m.fetch_page url with
    | .error _ => (5, [url])
    | .ok page_html =>
      match m.extract_iframe_src page_html with
      | none => (4, [url])
      | some src =>
        if src == "" then (4, [url])
        else
          let j := urljoin url src
          match m.fetch_page j with
          | .error _ => (5, [url, j])
          | .ok ih =>
            match m.extract_m3u8_from_html ih with
            | none => (4, [url, j])
            | some m3 =>
              if m3 == "" then (4, [url, j])
              else
                match m.download m3 out with
                | .ok c => (c, [url, j])
                | .error _ => (5, [url, j])
  else (5, [])

/-- `main(argv)` with the dynamic import as an oracle: version flag,
missing URL, site resolution, registry lookup, import, then the flow
dispatch.  Returns the exit status and the URLs fetched by `main`'s own
flow code. -/
def mainRun (imp : String → Except Unit PyModule) (args : Args) :
    Int × List String :=
  if args.version then (0, [])
  else
    match args.url with
    | none => (1, [])
    | some u =>
      if u == "" then (1, [])
      else
        match resolveSiteKey args u with
        | none => (2, [])
        | some k =>
          if k == "" then (2, [])
          else
            match lookupRegistry k with
            | none => (2, [])
            | some info =>
              match imp info.module with
              | .error _ => (3, [])
              | .ok m => runFlows m u args.output

/-! Concrete fixtures used to exercise the theorems below. -/

/-- Page document served in the eroleaked resolution scenario. -/
def eroCeDoc : Doc := ⟨"", [⟨"iframe", [("src", "/embed/x")]⟩], []⟩

/-- Fetch oracle for the eroleaked resolution scenario: only the page URL
resolves; every other fetch raises. -/
def eroCeFetch : String → Except Unit Doc :=
  fun u => if u == "http://eroleaked.com/a/" then .ok eroCeDoc else .error ()

/-- Page document for the amateurdoporn iframe scenario: no playlist in
the page text, one iframe with a relative src. -/
def amDoc : Doc := ⟨"noplaylist", [⟨"iframe", [("src", "/emb/1")]⟩], []⟩

def amFetch : String → Except Unit Doc :=
  fun u => if u == "https://amateurdoporn.com/p/" then .ok amDoc else .error ()

/-- A module exposing only the iframe/m3u8 interface, used to drive
`mainRun`'s third flow. -/
def ifrModule : PyModule :=
  ⟨false, false, true,
   fun _ _ => .error (),
   fun u => if u == "https://thothub.to/v" then .ok "PAGE" else .error (),
   fun _ => none,
   fun h => if h == "PAGE" then some "/e/x" else none,
   fun _ => none,
   fun _ _ => .error ()⟩

def ifrImp : String → Except Unit PyModule := fun _ => .ok ifrModule

/-- Witness modules for the exit-code scenarios. -/
def wmFull0 : PyModule :=
  ⟨true, false, false, fun _ _ => .ok 0, fun _ => .error (), fun _ => none,
   fun _ => none, fun _ => none, fun _ _ => .error ()⟩

def wmFullE : PyModule :=
  ⟨true, false, false, fun _ _ => .error (), fun _ => .error (), fun _ => none,
   fun _ => none, fun _ => none, fun _ _ => .error ()⟩

def wmClassicNone : PyModule :=
  ⟨false, true, false, fun _ _ => .error (), fun _ => .ok "H", fun _ => none,
   fun _ => none, fun _ => none, fun _ _ => .error ()⟩

def wmClassicOk : PyModule :=
  ⟨false, true, false, fun _ _ => .error (), fun _ => .ok "H",
   fun _ => some "https://c/v.mp4", fun _ => none, fun _ => none,
   fun _ _ => .ok 0⟩

def wmClassicDlE : PyModule :=
  ⟨false, true, false, fun _ _ => .error (), fun _ => .ok "H",
   fun _ => some "https://c/v.mp4", fun _ => none, fun _ => none,
   fun _ _ => .error ()⟩

def wmClassicFetchE : PyModule :=
  ⟨false, true, false, fun _ _ => .error (), fun _ => .error (), fun _ => none,
   fun _ => none, fun _ => none, fun _ _ => .error ()⟩

def wmIfrNone : PyModule :=
  ⟨false, false, true, fun _ _ => .error (), fun _ => .ok "H", fun _ => none,
   fun _ => none, fun _ => none, fun _ _ => .error ()⟩

def wmIfrNoM3 : PyModule :=
  ⟨false, false, true, fun _ _ => .error (), fun _ => .ok "H", fun _ => none,
   fun _ => some "/e", fun _ => none, fun _ _ => .error ()⟩

def wmIfrOk : PyModule :=
  ⟨false, false, true, fun _ _ => .error (), fun _ => .ok "H", fun _ => none,
   fun _ => some "/e", fun _ => some "https://c/p.m3u8", fun _ _ => .ok 0⟩

def wmNoIface : PyModule :=
  ⟨false, false, false, fun _ _ => .error (), fun _ => .error (), fun _ => none,
   fun _ => none, fun _ => none, fun _ _ => .error ()⟩

def wImpOf (m : PyModule) : String → Except Unit PyModule := fun _ => .ok m

def wImpErr : String → Except Unit PyModule := fun _ => .error ()

/-! Shared lemmas. -/

/-- An indexed element of a list is a member. -/
theorem mem_of_getQ {α : Type} {l : List α} {i : Nat} {a : α}
    (h : l.get? i = some a) : a ∈ l := by
  induction l generalizing i with
  | nil => simp at h
  | cons x xs ih =>
    cases i with
    | zero =>
      rw [List.get?_cons_zero] at h
      cases h
      exact List.mem_cons_self _ _
    | succ n =>
      rw [List.get?_cons_succ] at h
      exact List.mem_cons_of_mem x (ih h)

/-- `find?` returns the element at index `i` when everything before it
fails the predicate and it satisfies it. -/
theorem find?_of_take {α : Type} (p : α → Bool) :
    ∀ (l : List α) (i : Nat) (a : α),
      l.get? i = some a →
      ((l.take i).all (fun x => !(p x))) = true →
      p a = true →
      l.find? p = some a := by
  intro l
  induction l with
  | nil => intro i a h _ _; simp at h
  | cons x xs ih =>
    intro i a h hall hpa
    cases i with
    | zero =>
      rw [List.get?_cons_zero] at h
      cases h
      simp [List.find?_cons, hpa]
    | succ n =>
      rw [List.take_succ_cons, List.all_cons] at hall
      rw [List.get?_cons_succ] at h
      have hx : p x = false := by
        cases hpx : p x with
        | false => rfl
        | true => simp [hpx] at hall
      rw [List.find?_cons_of_neg _ (by simp [hx])]
      exact ih n a h (by simp_all) hpa

/-- Everything `sanitizeName` produces lies in the safe alphabet. -/
theorem sanitizeName_safe (s : String) :
    (sanitizeName s).toList.all isSafeChar = true := by
  show (s.toList.map _).all isSafeChar = true
  rw [List.all_map]
  apply List.all_eq_true.mpr
  intro c _
  simp only [Function.comp_apply]
  by_cases h : isSafeChar c
  · rw [if_pos h]; exact h
  · rw [if_neg h]; decide

/-- Safe characters are preserved by string append. -/
theorem append_safe {a b : String}
    (ha : a.toList.all isSafeChar = true)
    (hb : b.toList.all isSafeChar = true) :
    (a ++ b).toList.all isSafeChar = true := by
  have h : (a ++ b).toList = a.toList ++ b.toList := by
    cases a with
    | mk da =>
      cases b with
      | mk db => rfl
  rw [h, List.all_append, ha, hb]
  rfl

/-- Claim C9: every site module's download function rejects an empty or
missing media URL with a `ValueError` before performing any subprocess,
network or filesystem effect (the effect trace is empty). -/
theorem c9_falsy_url_validation (fsExists : String → Bool)
    (run : List String → Int) (http : String → Bool) (cwd : String)
    (which : Option String) (rnd : Nat) (out page : Option String) :
    (cumslutx.download run none out = (.error .valueError, []) ∧
      cumslutx.download run (some "") out = (.error .valueError, [])) ∧
    (simpthots.download run none out = (.error .valueError, []) ∧
      simpthots.download run (some "") out = (.error .valueError, [])) ∧
    (influencersgonewild.download fsExists run none out = (.error .valueError, []) ∧
      influencersgonewild.download fsExists run (some "") out = (.error .valueError, [])) ∧
    (eroleaked.download run none out = (.error .valueError, []) ∧
      eroleaked.download run (some "") out = (.error .valueError, [])) ∧
    (amateurdoporn.download run none out = (.error .valueError, []) ∧
      amateurdoporn.download run (some "") out = (.error .valueError, [])) ∧
    (thothub.download cwd rnd http none out = (.error .valueError, []) ∧
      thothub.download cwd rnd http (some "") out = (.error .valueError, [])) ∧
    (thotfans.download cwd rnd http none out = (.error .valueError, []) ∧
      thotfans.download cwd rnd http (some "") out = (.error .valueError, [])) ∧
    (fapnut.download cwd which run none out page = (.error .valueError, []) ∧
      fapnut.download cwd which run (some "") out page = (.error .valueError, [])) := by
  refine ⟨⟨rfl, rfl⟩, ⟨rfl, rfl⟩, ⟨rfl, rfl⟩, ⟨rfl, rfl⟩, ⟨rfl, rfl⟩,
    ⟨rfl, rfl⟩, ⟨rfl, rfl⟩, ⟨rfl, rfl⟩⟩

/-- Claim C5 counterexample: thothub's (and thotfans') URL-derived
default filename is the raw basename — `a%20b.mp4` keeps the unsafe `%`
character, so not every derivation function sanitizes. -/
theorem c5_thothub_unsanitized_counterexample :
    thothub._filename_from_url "https://x.com/a%20b.mp4" = "a%20b.mp4" ∧
    ((thothub._filename_from_url "https://x.com/a%20b.mp4").toList.all
      isSafeChar) = false ∧
    thotfans._filename_from_url "https://x.com/a%20b.mp4" = "a%20b.mp4" := by
  refine ⟨rfl, by decide, rfl⟩

/-- Claim C5 (amended): the filenames derived by the eroleaked,
amateurdoporn, cumslutx and simpthots modules consist only of safe
characters for every input URL; the thothub/thotfans/fapnut helpers
return the raw last path segment unsanitized. -/
theorem c5_sanitized_filenames_amended (url : String) :
    (eroleaked.derive_filename_from_url url).toList.all isSafeChar = true ∧
    (amateurdoporn.derive_filename_from_url url).toList.all isSafeChar = true ∧
    (cumslutx.derive_filename_from_url url).toList.all isSafeChar = true ∧
    (simpthots.derive_filename_from_url url).toList.all isSafeChar = true := by
  refine ⟨sanitizeName_safe _, sanitizeName_safe _, ?_, ?_⟩
  · unfold cumslutx.derive_filename_from_url
    dsimp only
    split
    · exact append_safe (sanitizeName_safe _) (by decide)
    · exact sanitizeName_safe _
  · unfold simpthots.derive_filename_from_url
    dsimp only
    split
    · exact append_safe (sanitizeName_safe _) (by decide)
    · exact sanitizeName_safe _

/-- Claim C7 counterexample: eroleaked's derivation strips slashes from
the raw URL string rather than parsing it, so the query string survives
into the name: the specified input yields `12345.mp4-x-1`, not
`12345.mp4`. -/
theorem c7_eroleaked_query_counterexample :
    eroleaked.derive_filename_from_url
        "https://cdn.example.com/videos/12345.mp4?x=1" = "12345.mp4-x-1" ∧
    ("12345.mp4-x-1" : String) ≠ "12345.mp4" := by
  refine ⟨rfl, by decide⟩

/-- Claim C7 (amended): the derivation functions that parse the URL
(cumslutx, simpthots, thothub, thotfans) strip a trailing slash and the
query string and map `https://cdn.example.com/videos/12345.mp4?x=1` to
exactly `12345.mp4`; eroleaked's keeps the query in the name. -/
theorem c7_filename_query_amended :
    cumslutx.derive_filename_from_url
        "https://cdn.example.com/videos/12345.mp4?x=1" = "12345.mp4" ∧
    cumslutx.derive_filename_from_url
        "https://cdn.example.com/videos/12345.mp4/?x=1" = "12345.mp4" ∧
    simpthots.derive_filename_from_url
        "https://cdn.example.com/videos/12345.mp4?x=1" = "12345.mp4" ∧
    simpthots.derive_filename_from_url
        "https://cdn.example.com/videos/12345.mp4/?x=1" = "12345.mp4" ∧
    thothub._filename_from_url
        "https://cdn.example.com/videos/12345.mp4?x=1" = "12345.mp4" ∧
    thothub._filename_from_url
        "https://cdn.example.com/videos/12345.mp4/?x=1" = "12345.mp4" ∧
    thotfans._filename_from_url
        "https://cdn.example.com/videos/12345.mp4?x=1" = "12345.mp4" ∧
    thotfans._filename_from_url
        "https://cdn.example.com/videos/12345.mp4/?x=1" = "12345.mp4" := by
  refine ⟨rfl, rfl, rfl, rfl, rfl, rfl, rfl, rfl⟩

/-- Claim C8 counterexample: fapnut's download maps a non-zero ffmpeg
exit code (here 1) to a raised `RuntimeError` instead of returning it. -/
theorem c8_fapnut_raises_counterexample :
    (fapnut.download "/w" (some "/usr/bin/ffmpeg") (fun _ => 1)
        (some "https://h/s.m3u8") none none).1 = .error .runtimeError ∧
    (fapnut.download "/w" (some "/usr/bin/ffmpeg") (fun _ => 1)
        (some "https://h/s.m3u8") none none).1 ≠ .ok 1 := by
  refine ⟨rfl, fun h => ?_⟩
  rw [show (fapnut.download "/w" (some "/usr/bin/ffmpeg") (fun _ => 1)
      (some "https://h/s.m3u8") none none).1 =
      (Except.error PyErr.runtimeError : Except PyErr Int) from rfl] at h
  exact Except.noConfusion h

/-- Claim C8 (amended): for a non-empty `.m3u8` URL, eroleaked and
amateurdoporn return the stream-copy tool's exit code directly,
whatever it is; fapnut returns 0 on success and raises `RuntimeError`
on any non-zero exit code. -/
theorem c8_exit_code_amended :
    (∀ (run : List String → Int) (u : String) (out : Option String),
        u ≠ "" →
        (eroleaked.download run (some u) out).1 =
          .ok (run (eroleaked.ffmpegCmd u (eroleaked.resolveOut out)))) ∧
    (∀ (run : List String → Int) (u : String) (out : Option String),
        u ≠ "" →
        (amateurdoporn.download run (some u) out).1 =
          .ok (run (amateurdoporn.ffmpegCmd u (amateurdoporn.resolveOut u out)))) ∧
    (∀ (cwd fp : String) (run : List String → Int) (u : String)
        (out page : Option String),
        u ≠ "" →
        run (fapnut.ffmpegCmd fp u (fapnut.resolveOut cwd u out page)) ≠ 0 →
        (fapnut.download cwd (some fp) run (some u) out page).1 =
          .error .runtimeError) ∧
    (∀ (cwd fp : String) (run : List String → Int) (u : String)
        (out page : Option String),
        u ≠ "" →
        run (fapnut.ffmpegCmd fp u (fapnut.resolveOut cwd u out page)) = 0 →
        (fapnut.download cwd (some fp) run (some u) out page).1 = .ok 0) := by
  refine ⟨?_, ?_, ?_, ?_⟩
  · intro run u out hu
    have hb : (u == "") = false := beq_eq_false_iff_ne.mpr hu
    simp [eroleaked.download, hb]
  · intro run u out hu
    have hb : (u == "") = false := beq_eq_false_iff_ne.mpr hu
    simp [amateurdoporn.download, hb]
  · intro cwd fp run u out page hu hr
    have hb : (u == "") = false := beq_eq_false_iff_ne.mpr hu
    simp [fapnut.download, hb, hr]
  · intro cwd fp run u out page hu hr
    have hb : (u == "") = false := beq_eq_false_iff_ne.mpr hu
    simp [fapnut.download, hb, hr]

/-- Witness for the amended C8 theorem at concrete inputs. -/
theorem c8_exit_code_amended_witness :
    (eroleaked.download (fun _ => 7) (some "https://h/s.m3u8") none).1 = .ok 7 ∧
    (amateurdoporn.download (fun _ => 9) (some "https://h/s.m3u8") none).1 = .ok 9 ∧
    (fapnut.download "/w" (some "ff") (fun _ => 3)
        (some "https://h/s.m3u8") none none).1 = .error .runtimeError ∧
    (fapnut.download "/w" (some "ff") (fun _ => 0)
        (some "https://h/s.m3u8") none none).1 = .ok 0 := by
  refine ⟨?_, ?_, ?_, ?_⟩
  · exact c8_exit_code_amended.1 (fun _ => 7) "https://h/s.m3u8" none (by decide)
  · exact c8_exit_code_amended.2.1 (fun _ => 9) "https://h/s.m3u8" none (by decide)
  · exact c8_exit_code_amended.2.2.1 "/w" "ff" (fun _ => 3) "https://h/s.m3u8"
      none none (by decide) (by decide)
  · exact c8_exit_code_amended.2.2.2 "/w" "ff" (fun _ => 0) "https://h/s.m3u8"
      none none (by decide) rfl

/-- Claim C3: whenever a structured media reference is present (meta tag
with an `.mp4` content, source tag with a src, the source-tag regex),
each DirectMp4 extractor returns exactly that URL, whatever else the raw
document text contains — the textual fallback is never consulted. -/
theorem c3_structured_precedence :
    (∀ (d : Doc) (u : String), cumslutx.metaUrl d = some u →
      cumslutx.extract_mp4_url d = some u) ∧
    (∀ (d : Doc) (u : String), cumslutx.metaUrl d = none →
      cumslutx.sourceUrl d = some u → cumslutx.extract_mp4_url d = some u) ∧
    (∀ (d : Doc) (u : String), influencersgonewild.sourceUrl d = some u →
      influencersgonewild.extract_mp4_url d = some u) ∧
    (∀ (h u : String), thotfans.sourceScan h = some u →
      thotfans.extract_mp4_url h = some u) ∧
    (∀ (d : Doc) (u : String), simpthots.ogUrl d = some u →
      simpthots.extract_mp4_url d = some u) := by
  refine ⟨?_, ?_, ?_, ?_, ?_⟩
  · intro d u hm
    simp [cumslutx.extract_mp4_url, hm]
  · intro d u hm hs
    simp [cumslutx.extract_mp4_url, hm, hs]
  · intro d u hs
    simp [influencersgonewild.extract_mp4_url, hs]
  · intro h u hs
    unfold thotfans.extract_mp4_url
    cases hq : (h == "") with
    | true =>
      exfalso
      have he : h = "" := eq_of_beq hq
      subst he
      rw [show thotfans.sourceScan "" = none from rfl] at hs
      exact Option.noConfusion hs
    | false => simp [hq, hs]
  · intro d u hm
    simp [simpthots.extract_mp4_url, hm]

/-- Witness for C3: concrete documents where a decoy bare `.mp4` URL
appears in the raw text before the structured reference, yet the
structured URL is returned. -/
theorem c3_structured_precedence_witness :
    cumslutx.extract_mp4_url
      ⟨"decoy https://d.co/a.mp4 here",
       [⟨"meta", [("itemprop", "contentURL"),
                  ("content", "https://r.co/real.mp4")]⟩], []⟩ =
      some "https://r.co/real.mp4" ∧
    cumslutx.extract_mp4_url
      ⟨"decoy https://d.co/a.mp4 here",
       [⟨"source", [("type", "video/mp4"), ("src", "https://r.co/v.mp4")]⟩],
       []⟩ = some "https://r.co/v.mp4" ∧
    influencersgonewild.extract_mp4_url
      ⟨"decoy https://d.co/a.mp4 here",
       [⟨"source", [("type", "video/mp4"), ("src", "https://r.co/v.mp4")]⟩],
       []⟩ = some "https://r.co/v.mp4" ∧
    thotfans.extract_mp4_url
      "https://d.co/a.mp4 <source x src=\"https://c.x/v.mp4\">" =
      some "https://c.x/v.mp4" ∧
    simpthots.extract_mp4_url
      ⟨"decoy https://d.co/a.mp4 here",
       [⟨"meta", [("property", "og:video"),
                  ("content", "https://r.co/og.mp4")]⟩], []⟩ =
      some "https://r.co/og.mp4" := by
  refine ⟨?_, ?_, ?_, ?_, ?_⟩
  · exact c3_structured_precedence.1 _ _ rfl
  · exact c3_structured_precedence.2.1 _ _ rfl rfl
  · exact c3_structured_precedence.2.2.1 _ _ rfl
  · exact c3_structured_precedence.2.2.2.1 _ _ rfl
  · exact c3_structured_precedence.2.2.2.2 _ _ rfl

/-- Claim C4 counterexample: influencersgonewild's extractor has no
textual fallback — on a document with no source tag but a bare `.mp4`
URL in the text (which the generic fallback regex does find), it returns
none. -/
theorem c4_igw_no_fallback_counterexample :
    fallbackScanMp4 "see https://cdn.example.com/v.mp4 now" =
      some "https://cdn.example.com/v.mp4" ∧
    influencersgonewild.extract_mp4_url
      ⟨"see https://cdn.example.com/v.mp4 now", [], []⟩ = none := by
  exact ⟨rfl, rfl⟩

/-- Claim C4 (amended): every DirectMp4 extractor except
influencersgonewild's falls back to its regex scan of the raw text: with
no structured match, a bare absolute `.mp4` URL found by the fallback
scan is returned rather than none. -/
theorem c4_fallback_scan_amended :
    (∀ (d : Doc) (u : String), cumslutx.metaUrl d = none →
      cumslutx.sourceUrl d = none → fallbackScanMp4 d.text = some u →
      cumslutx.extract_mp4_url d = some u) ∧
    (∀ (d : Doc) (u : String), simpthots.ogUrl d = none →
      simpthots.ogSecureUrl d = none → fallbackScanMp4 d.text = some u →
      simpthots.extract_mp4_url d = some u) ∧
    (∀ (h u : String), thotfans.sourceScan h = none →
      thotfans.anchorScan h = none → thotfans.fallbackScan h = some u →
      thotfans.extract_mp4_url h = some u) ∧
    (∀ (h u : String), thothub.primaryScan h = none →
      thothub.fallbackScan h = some u → thothub.extract_mp4_url h = some u) := by
  refine ⟨?_, ?_, ?_, ?_⟩
  · intro d u hm hs hf
    simp [cumslutx.extract_mp4_url, hm, hs, hf]
  · intro d u h1 h2 hf
    simp [simpthots.extract_mp4_url, h1, h2, hf]
  · intro h u h1 h2 hf
    unfold thotfans.extract_mp4_url
    cases hq : (h == "") with
    | true =>
      exfalso
      have he : h = "" := eq_of_beq hq
      subst he
      rw [show thotfans.fallbackScan "" = none from rfl] at hf
      exact Option.noConfusion hf
    | false => simp [hq, h1, h2, hf]
  · intro h u h1 hf
    unfold thothub.extract_mp4_url
    cases hq : (h == "") with
    | true =>
      exfalso
      have he : h = "" := eq_of_beq hq
      subst he
      rw [show thothub.fallbackScan "" = none from rfl] at hf
      exact Option.noConfusion hf
    | false => simp [hq, h1, hf]

/-- Witness for the amended C4 theorem: concrete documents with only a
bare `.mp4` URL in the text. -/
theorem c4_fallback_scan_amended_witness :
    cumslutx.extract_mp4_url ⟨"x https://c.co/a.mp4 y", [], []⟩ =
      some "https://c.co/a.mp4" ∧
    simpthots.extract_mp4_url ⟨"x https://c.co/a.mp4 y", [], []⟩ =
      some "https://c.co/a.mp4" ∧
    thotfans.extract_mp4_url "x https://c.co/a.mp4 y" =
      some "https://c.co/a.mp4" ∧
    thothub.extract_mp4_url "x https://c.co/a.mp4 y" =
      some "https://c.co/a.mp4" := by
  refine ⟨?_, ?_, ?_, ?_⟩
  · exact c4_fallback_scan_amended.1 _ _ rfl rfl rfl
  · exact c4_fallback_scan_amended.2.1 _ _ rfl rfl rfl
  · exact c4_fallback_scan_amended.2.2.1 _ _ rfl rfl rfl
  · exact c4_fallback_scan_amended.2.2.2 _ _ rfl rfl

/-- Claim C10: for the streaming downloaders (thothub, thotfans) the
chosen output file does not depend on the random `rnd` value appended to
the request URL: the created directory and written file are identical
across any two draws (when the HTTP outcome is the same), and the
directory created is always the parent of the output resolved from the
original URL alone. -/
theorem c10_rnd_independent_output (cwd url : String) (out : Option String)
    (rnd1 rnd2 : Nat) (http : String → Bool)
    (h1 : http (thothub._append_random_rnd rnd1 url) =
          http (thothub._append_random_rnd rnd2 url))
    (h2 : http (thotfans._append_random_rnd rnd1 url) =
          http (thotfans._append_random_rnd rnd2 url)) :
    (mkdirTargets (thothub.download cwd rnd1 http (some url) out).2 =
       mkdirTargets (thothub.download cwd rnd2 http (some url) out).2 ∧
     writeTargets (thothub.download cwd rnd1 http (some url) out).2 =
       writeTargets (thothub.download cwd rnd2 http (some url) out).2 ∧
     mkdirTargets (thothub.download cwd rnd1 http (some url) out).2 =
       (if url == "" then []
        else [parentDir (thothub.resolveOut cwd url out)])) ∧
    (mkdirTargets (thotfans.download cwd rnd1 http (some url) out).2 =
       mkdirTargets (thotfans.download cwd rnd2 http (some url) out).2 ∧
     writeTargets (thotfans.download cwd rnd1 http (some url) out).2 =
       writeTargets (thotfans.download cwd rnd2 http (some url) out).2 ∧
     mkdirTargets (thotfans.download cwd rnd1 http (some url) out).2 =
       (if url == "" then []
        else [parentDir (thotfans.resolveOut cwd url out)])) := by
  constructor
  · cases hq : (url == "") with
    | true =>
      refine ⟨?_, ?_, ?_⟩ <;> simp [thothub.download, hq, mkdirTargets, writeTargets]
    | false =>
      cases hb : http (thothub._append_random_rnd rnd1 url) with
      | true =>
        have hb2 : http (thothub._append_random_rnd rnd2 url) = true := by
          rw [← h1]; exact hb
        refine ⟨?_, ?_, ?_⟩ <;>
          simp [thothub.download, hq, hb, hb2, mkdirTargets, writeTargets]
      | false =>
        have hb2 : http (thothub._append_random_rnd rnd2 url) = false := by
          rw [← h1]; exact hb
        refine ⟨?_, ?_, ?_⟩ <;>
          simp [thothub.download, hq, hb, hb2, mkdirTargets, writeTargets]
  · cases hq : (url == "") with
    | true =>
      refine ⟨?_, ?_, ?_⟩ <;> simp [thotfans.download, hq, mkdirTargets, writeTargets]
    | false =>
      cases hb : http (thotfans._append_random_rnd rnd1 url) with
      | true =>
        have hb2 : http (thotfans._append_random_rnd rnd2 url) = true := by
          rw [← h2]; exact hb
        refine ⟨?_, ?_, ?_⟩ <;>
          simp [thotfans.download, hq, hb, hb2, mkdirTargets, writeTargets]
      | false =>
        have hb2 : http (thotfans._append_random_rnd rnd2 url) = false := by
          rw [← h2]; exact hb
        refine ⟨?_, ?_, ?_⟩ <;>
          simp [thotfans.download, hq, hb, hb2, mkdirTargets, writeTargets]

/-- Witness for C10 at concrete inputs: two different `rnd` draws, same
output file. -/
theorem c10_rnd_independent_output_witness :
    mkdirTargets (thothub.download "/w" 1 (fun _ => true)
        (some "https://cdn.x/v/a.mp4") none).2 =
      mkdirTargets (thothub.download "/w" 2 (fun _ => true)
        (some "https://cdn.x/v/a.mp4") none).2 ∧
    writeTargets (thothub.download "/w" 1 (fun _ => true)
        (some "https://cdn.x/v/a.mp4") none).2 =
      writeTargets (thothub.download "/w" 2 (fun _ => true)
        (some "https://cdn.x/v/a.mp4") none).2 ∧
    writeTargets (thothub.download "/w" 1 (fun _ => true)
        (some "https://cdn.x/v/a.mp4") none).2 = ["/w/a.mp4"] ∧
    writeTargets (thotfans.download "/w" 1 (fun _ => true)
        (some "https://cdn.x/v/a.mp4") none).2 =
      writeTargets (thotfans.download "/w" 2 (fun _ => true)
        (some "https://cdn.x/v/a.mp4") none).2 := by
  have h := c10_rnd_independent_output "/w" "https://cdn.x/v/a.mp4" none 1 2
    (fun _ => true) rfl rfl
  exact ⟨h.1.1, h.1.2.1, rfl, h.2.2.1⟩

/-- Claim C6 counterexample: eroleaked's flow resolves a leading-slash
iframe src against the hardcoded `https://eroleaked.com`, not against the
page URL — for an `http://` page URL the fetched iframe URL differs from
the `urljoin` resolution against the original page URL. -/
theorem c6_eroleaked_hardcoded_base_counterexample :
    eroleaked.extract_iframe_src eroCeDoc = some "/embed/x" ∧
    (eroleaked.full_download_from_page (fun _ => 0) eroCeFetch
        "http://eroleaked.com/a/" none).2 =
      ["http://eroleaked.com/a/", "https://eroleaked.com/embed/x"] ∧
    urljoin "http://eroleaked.com/a/" "/embed/x" =
      "http://eroleaked.com/embed/x" ∧
    ("https://eroleaked.com/embed/x" : String) ≠
      "http://eroleaked.com/embed/x" := by
  refine ⟨rfl, rfl, rfl, by decide⟩

/-- Claim C6 (amended): in the dispatch pipeline's iframe flow and in
amateurdoporn's high-level flow, a relative iframe src is resolved with
`urljoin` against the original page URL before the iframe page is
fetched (the fetch trace is exactly the page URL followed by the joined
URL); eroleaked's own flow instead resolves leading-slash srcs against
its hardcoded site root. -/
theorem c6_iframe_resolution_amended :
    (∀ (imp : String → Except Unit PyModule) (args : Args) (u k : String)
        (info : SiteInfo) (m : PyModule) (ph src : String),
        args.version = false → args.url = some u → (u == "") = false →
        resolveSiteKey args u = some k → (k == "") = false →
        lookupRegistry k = some info → imp info.module = .ok m →
        m.hasFull = false → m.hasClassic = false → m.hasIframeFlow = true →
        m.fetch_page u = .ok ph → m.extract_iframe_src ph = some src →
        (src == "") = false →
        (mainRun imp args).2 = [u, urljoin u src]) ∧
    (∀ (run : List String → Int) (fetch : String → Except Unit Doc)
        (url : String) (out : Option String) (d : Doc) (src : String),
        fetch url = .ok d →
        amateurdoporn.extract_m3u8_from_text d.text = none →
        amateurdoporn.extract_iframe_src d = some src →
        (src == "") = false →
        (amateurdoporn.full_download_from_page run fetch url out).2 =
          [url, urljoin url src]) := by
  constructor
  · intro imp args u k info m ph src hv hu hue hk hke hl himp hf1 hf2 hf3
      hfp hif hsne
    unfold mainRun runFlows
    rw [hu]
    simp only [hv, Bool.false_eq_true, if_false, hue, hk, hke, hl, himp,
      hf1, hf2, hf3, if_true, hfp, hif, hsne]
    cases hq : m.fetch_page (urljoin u src) with
    | error e => simp [hq]
    | ok ih =>
      cases hm : m.extract_m3u8_from_html ih with
      | none => simp [hq, hm]
      | some m3 =>
        cases hme : (m3 == "") with
        | true => simp [hq, hm, hme]
        | false =>
          cases hd : m.download m3 args.output with
          | error e => simp [hq, hm, hme, hd]
          | ok c => simp [hq, hm, hme, hd]
  · intro run fetch url out d src hfp hm3 hif hsne
    unfold amateurdoporn.full_download_from_page
    rw [hfp]
    simp only [hm3, hif, hsne]
    cases hq : fetch (urljoin url src) with
    | error e => simp [hq]
    | ok d2 =>
      cases hm : amateurdoporn.extract_m3u8_from_text d2.text with
      | none => simp [hq, hm]
      | some m3 => simp [hq, hm]

/-- Witness for the amended C6 theorem: a concrete `mainRun` invocation
and a concrete amateurdoporn flow both fetch exactly the page URL and
then the `urljoin`-resolved iframe URL. -/
theorem c6_iframe_resolution_amended_witness :
    (mainRun ifrImp ⟨false, some "thothub", some "https://thothub.to/v", none⟩).2 =
      ["https://thothub.to/v", urljoin "https://thothub.to/v" "/e/x"] ∧
    urljoin "https://thothub.to/v" "/e/x" = "https://thothub.to/e/x" ∧
    (amateurdoporn.full_download_from_page (fun _ => 0) amFetch
        "https://amateurdoporn.com/p/" none).2 =
      ["https://amateurdoporn.com/p/",
       urljoin "https://amateurdoporn.com/p/" "/emb/1"] := by
  refine ⟨?_, rfl, ?_⟩
  · exact c6_iframe_resolution_amended.1 ifrImp
      ⟨false, some "thothub", some "https://thothub.to/v", none⟩
      "https://thothub.to/v" "thothub"
      ⟨"super_dl.sites.thothub", ["thothub.to", "thothub.org"]⟩
      ifrModule "PAGE" "/e/x" rfl rfl rfl rfl rfl rfl rfl rfl rfl rfl rfl
      rfl rfl
  · exact c6_iframe_resolution_amended.2 (fun _ => 0) amFetch
      "https://amateurdoporn.com/p/" none amDoc "/emb/1" rfl rfl rfl rfl

/-- Claim C2 counterexample: a hostname can contain the patterns of two
different registry entries; the first entry in insertion order wins, so
for the pattern `cumslutx.com` the classification of a URL whose host
contains it need not be `cumslutx`. -/
theorem c2_first_match_shadowing_counterexample :
    ("cumslutx.com" ∈
      (⟨"super_dl.sites.cumslutx",
        ["cumslutx.com", "girlxnude.com", "fapplay.com"]⟩ : SiteInfo).hosts) ∧
    site_registry.get? 3 = some ("cumslutx",
      ⟨"super_dl.sites.cumslutx",
       ["cumslutx.com", "girlxnude.com", "fapplay.com"]⟩) ∧
    containsStr (normHost "https://eroleaked.com.cumslutx.com/v")
      "cumslutx.com" = true ∧
    infer_site_from_url "https://eroleaked.com.cumslutx.com/v" =
      some "eroleaked" ∧
    (some "eroleaked" : Option String) ≠ some "cumslutx" := by
  refine ⟨by decide, rfl, by decide, rfl, by decide⟩

/-- Claim C2 (amended): for every registry entry and hostname pattern,
any URL whose normalized host (lowercased, userinfo stripped, leading
`www.` stripped) contains the pattern is classified as that entry's site
key, provided no earlier registry entry also matches the host; the
registry is scanned in insertion order and the first match wins. -/
theorem c2_infer_site_amended (url : String) (i : Nat) (key : String)
    (info : SiteInfo) (host : String)
    (hreg : site_registry.get? i = some (key, info))
    (hhost : host ∈ info.hosts)
    (hsub : containsStr (normHost url) host = true)
    (hearlier : ((site_registry.take i).all
        (fun e => !(hostMatches (normHost url) e.2))) = true) :
    infer_site_from_url url = some key := by
  have hmem : (key, info) ∈ site_registry := mem_of_getQ hreg
  have hne : (host == "") = false := by
    have hall : ∀ e ∈ site_registry, ∀ h ∈ e.2.hosts, (h == "") = false := by
      decide
    exact hall _ hmem _ hhost
  have hurl : (url == "") = false := by
    cases hq : (url == "") with
    | false => rfl
    | true =>
      exfalso
      have he : url = "" := eq_of_beq hq
      subst he
      have hn : normHost "" = "" := rfl
      rw [hn] at hsub
      cases hl : host.toList with
      | nil =>
        have h0 : host = "" := by
          cases host with
          | mk d => cases hl; rfl
        rw [h0] at hne
        simp at hne
      | cons c cs =>
        unfold containsStr containsSub at hsub
        rw [show ("" : String).toList = [] from rfl] at hsub
        rw [hl] at hsub
        simp [leadsWith] at hsub
  have hp : hostMatches (normHost url) info = true := by
    unfold hostMatches
    apply List.any_eq_true.mpr
    refine ⟨host, hhost, ?_⟩
    simp [hne, hsub]
  have hfind : site_registry.find?
      (fun e => hostMatches (normHost url) e.2) = some (key, info) :=
    find?_of_take _ site_registry i (key, info) hreg hearlier hp
  unfold infer_site_from_url
  simp [hurl, hfind]

/-- Witness for the amended C2 theorem: a URL with uppercase letters,
userinfo and a `www.` prefix classified as the last registry entry
(so every earlier entry is checked and fails). -/
theorem c2_infer_site_amended_witness :
    infer_site_from_url "https://User:Pw@WWW.ThotFans.com/x/" =
      some "thotfans" := by
  exact c2_infer_site_amended "https://User:Pw@WWW.ThotFans.com/x/" 6
    "thotfans" ⟨"super_dl.sites.thotfans", ["thotfans.com"]⟩ "thotfans.com"
    rfl (by decide) (by decide) (by decide)

/-- Claim C1: `main`'s exit statuses — 0 for the version flag and for a
successful flow, 1 for a missing URL, 2 when no site can be determined
or the site key is not registered, 3 when the module import fails, 4
when no media URL (or no iframe, or no playlist) is found, and 5 when
the module exposes no supported interface or any processing step raises. -/
theorem c1_exit_codes (imp : String → Except Unit PyModule) (args : Args) :
    (args.version = true → (mainRun imp args).1 = 0) ∧
    (args.version = false → isFalsy args.url = true →
      (mainRun imp args).1 = 1) ∧
    (∀ u, args.version = false → args.url = some u → (u == "") = false →
      resolveSiteKey args u = none → (mainRun imp args).1 = 2) ∧
    (∀ u k, args.version = false → args.url = some u → (u == "") = false →
      resolveSiteKey args u = some k → (k == "") = false →
      lookupRegistry k = none → (mainRun imp args).1 = 2) ∧
    (∀ u k info, args.version = false → args.url = some u →
      (u == "") = false → resolveSiteKey args u = some k →
      (k == "") = false → lookupRegistry k = some info →
      imp info.module = .error () → (mainRun imp args).1 = 3) ∧
    (∀ u k info m, args.version = false → args.url = some u →
      (u == "") = false → resolveSiteKey args u = some k →
      (k == "") = false → lookupRegistry k = some info →
      imp info.module = .ok m →
      (mainRun imp args).1 = (runFlows m u args.output).1) ∧
    (∀ (m : PyModule) (u : String) (out : Option String),
      m.hasFull = true → m.full u out = .ok 0 → (runFlows m u out).1 = 0) ∧
    (∀ (m : PyModule) (u h mp4 : String) (out : Option String),
      m.hasFull = false → m.hasClassic = true → m.fetch_page u = .ok h →
      m.extract_mp4_url h = some mp4 → (mp4 == "") = false →
      m.download mp4 out = .ok 0 → (runFlows m u out).1 = 0) ∧
    (∀ (m : PyModule) (u h : String) (out : Option String),
      m.hasFull = false → m.hasClassic = true → m.fetch_page u = .ok h →
      m.extract_mp4_url h = none → (runFlows m u out).1 = 4) ∧
    (∀ (m : PyModule) (u h : String) (out : Option String),
      m.hasFull = false → m.hasClassic = false → m.hasIframeFlow = true →
      m.fetch_page u = .ok h → m.extract_iframe_src h = none →
      (runFlows m u out).1 = 4) ∧
    (∀ (m : PyModule) (u h src ih : String) (out : Option String),
      m.hasFull = false → m.hasClassic = false → m.hasIframeFlow = true →
      m.fetch_page u = .ok h → m.extract_iframe_src h = some src →
      (src == "") = false → m.fetch_page (urljoin u src) = .ok ih →
      m.extract_m3u8_from_html ih = none → (runFlows m u out).1 = 4) ∧
    (∀ (m : PyModule) (u : String) (out : Option String),
      m.hasFull = false → m.hasClassic = false → m.hasIframeFlow = false →
      (runFlows m u out).1 = 5) ∧
    (∀ (m : PyModule) (u : String) (out : Option String),
      m.hasFull = true → m.full u out = .error () →
      (runFlows m u out).1 = 5) ∧
    (∀ (m : PyModule) (u : String) (out : Option String),
      m.hasFull = false → m.hasClassic = true → m.fetch_page u = .error () →
      (runFlows m u out).1 = 5) ∧
    (∀ (m : PyModule) (u h mp4 : String) (out : Option String),
      m.hasFull = false → m.hasClassic = true → m.fetch_page u = .ok h →
      m.extract_mp4_url h = some mp4 → (mp4 == "") = false →
      m.download mp4 out = .error () → (runFlows m u out).1 = 5) ∧
    (∀ (m : PyModule) (u h src ih m3 : String) (out : Option String),
      m.hasFull = false → m.hasClassic = false → m.hasIframeFlow = true →
      m.fetch_page u = .ok h → m.extract_iframe_src h = some src →
      (src == "") = false → m.fetch_page (urljoin u src) = .ok ih →
      m.extract_m3u8_from_html ih = some m3 → (m3 == "") = false →
      m.download m3 out = .ok 0 → (runFlows m u out).1 = 0) := by
  refine ⟨?_, ?_, ?_, ?_, ?_, ?_, ?_, ?_, ?_, ?_, ?_, ?_, ?_, ?_, ?_, ?_⟩
  · intro hv
    simp [mainRun, hv]
  · intro hv hfu
    unfold mainRun
    cases hu : args.url with
    | none => simp [hv]
    | some s =>
      rw [hu] at hfu
      have hs : (s == "") = true := hfu
      simp [hv, hs]
  · intro u hv hu hue hk
    simp [mainRun, hv, hu, hue, hk]
  · intro u k hv hu hue hk hke hl
    simp [mainRun, hv, hu, hue, hk, hke, hl]
  · intro u k info hv hu hue hk hke hl himp
    simp [mainRun, hv, hu, hue, hk, hke, hl, himp]
  · intro u k info m hv hu hue hk hke hl himp
    simp [mainRun, hv, hu, hue, hk, hke, hl, himp]
  · intro m u out hfl hres
    simp [runFlows, hfl, hres]
  · intro m u h mp4 out hfl hcl hfp hex hne hdl
    simp [runFlows, hfl, hcl, hfp, hex, hne, hdl]
  · intro m u h out hfl hcl hfp hex
    simp [runFlows, hfl, hcl, hfp, hex]
  · intro m u h out hfl hcl hifr hfp hex
    simp [runFlows, hfl, hcl, hifr, hfp, hex]
  · intro m u h src ih out hfl hcl hifr hfp hex hne hfp2 hm3
    simp [runFlows, hfl, hcl, hifr, hfp, hex, hne, hfp2, hm3]
  · intro m u out hfl hcl hifr
    simp [runFlows, hfl, hcl, hifr]
  · intro m u out hfl hres
    simp [runFlows, hfl, hres]
  · intro m u out hfl hcl hfp
    simp [runFlows, hfl, hcl, hfp]
  · intro m u h mp4 out hfl hcl hfp hex hne hdl
    simp [runFlows, hfl, hcl, hfp, hex, hne, hdl]
  · intro m u h src ih m3 out hfl hcl hifr hfp hex hne hfp2 hm3 hm3ne hdl
    simp [runFlows, hfl, hcl, hifr, hfp, hex, hne, hfp2, hm3, hm3ne, hdl]

/-- Witness for C1: one concrete invocation per exit-code scenario. -/
theorem c1_exit_codes_witness :
    (mainRun wImpErr ⟨true, none, none, none⟩).1 = 0 ∧
    (mainRun wImpErr ⟨false, none, none, none⟩).1 = 1 ∧
    (mainRun wImpErr ⟨false, none, some "https://nosite.example/", none⟩).1 = 2 ∧
    (mainRun wImpErr ⟨false, some "nope", some "https://x/", none⟩).1 = 2 ∧
    (mainRun wImpErr ⟨false, some "thothub", some "https://x/", none⟩).1 = 3 ∧
    (mainRun (wImpOf wmFull0)
        ⟨false, some "thothub", some "https://x/", none⟩).1 =
      (runFlows wmFull0 "https://x/" none).1 ∧
    (runFlows wmFull0 "u" none).1 = 0 ∧
    (runFlows wmClassicOk "u" none).1 = 0 ∧
    (runFlows wmClassicNone "u" none).1 = 4 ∧
    (runFlows wmIfrNone "u" none).1 = 4 ∧
    (runFlows wmIfrNoM3 "u" none).1 = 4 ∧
    (runFlows wmNoIface "u" none).1 = 5 ∧
    (runFlows wmFullE "u" none).1 = 5 ∧
    (runFlows wmClassicFetchE "u" none).1 = 5 ∧
    (runFlows wmClassicDlE "u" none).1 = 5 ∧
    (runFlows wmIfrOk "u" none).1 = 0 := by
  refine ⟨?_, ?_, ?_, ?_, ?_, ?_, ?_, ?_, ?_, ?_, ?_, ?_, ?_, ?_, ?_, ?_⟩
  · exact (c1_exit_codes wImpErr _).1 rfl
  · exact (c1_exit_codes wImpErr _).2.1 rfl rfl
  · exact (c1_exit_codes wImpErr _).2.2.1 "https://nosite.example/" rfl rfl rfl rfl
  · exact (c1_exit_codes wImpErr _).2.2.2.1 "https://x/" "nope" rfl rfl rfl rfl
      rfl rfl
  · exact (c1_exit_codes wImpErr _).2.2.2.2.1 "https://x/" "thothub"
      ⟨"super_dl.sites.thothub", ["thothub.to", "thothub.org"]⟩ rfl rfl rfl
      rfl rfl rfl rfl
  · exact (c1_exit_codes (wImpOf wmFull0) _).2.2.2.2.2.1 "https://x/" "thothub"
      ⟨"super_dl.sites.thothub", ["thothub.to", "thothub.org"]⟩ wmFull0 rfl
      rfl rfl rfl rfl rfl rfl
  · exact (c1_exit_codes wImpErr ⟨true, none, none, none⟩).2.2.2.2.2.2.1
      wmFull0 "u" none rfl rfl
  · exact (c1_exit_codes wImpErr ⟨true, none, none, none⟩).2.2.2.2.2.2.2.1
      wmClassicOk "u" "H" "https://c/v.mp4" none rfl rfl rfl rfl rfl rfl
  · exact (c1_exit_codes wImpErr ⟨true, none, none, none⟩).2.2.2.2.2.2.2.2.1
      wmClassicNone "u" "H" none rfl rfl rfl rfl
  · exact (c1_exit_codes wImpErr ⟨true, none, none, none⟩).2.2.2.2.2.2.2.2.2.1
      wmIfrNone "u" "H" none rfl rfl rfl rfl rfl
  · exact (c1_exit_codes wImpErr
      ⟨true, none, none, none⟩).2.2.2.2.2.2.2.2.2.2.1
      wmIfrNoM3 "u" "H" "/e" "H" none rfl rfl rfl rfl rfl rfl rfl rfl
  · exact (c1_exit_codes wImpErr
      ⟨true, none, none, none⟩).2.2.2.2.2.2.2.2.2.2.2.1
      wmNoIface "u" none rfl rfl rfl
  · exact (c1_exit_codes wImpErr
      ⟨true, none, none, none⟩).2.2.2.2.2.2.2.2.2.2.2.2.1
      wmFullE "u" none rfl rfl
  · exact (c1_exit_codes wImpErr
      ⟨true, none, none, none⟩).2.2.2.2.2.2.2.2.2.2.2.2.2.1
      wmClassicFetchE "u" none rfl rfl rfl
  · exact (c1_exit_codes wImpErr
      ⟨true, none, none, none⟩).2.2.2.2.2.2.2.2.2.2.2.2.2.2.1
      wmClassicDlE "u" "H" "https://c/v.mp4" none rfl rfl rfl rfl rfl rfl
  · exact (c1_exit_codes wImpErr
      ⟨true, none, none, none⟩).2.2.2.2.2.2.2.2.2.2.2.2.2.2.2
      wmIfrOk "u" "H" "/e" "H" "https://c/p.m3u8" none rfl rfl rfl rfl rfl
      rfl rfl rfl rfl rfl
